import Mathlib

set_option maxRecDepth 100000

/-!
Verification of the aui-next-generator project scaffolding tool.

The Rust sources are shallowly embedded as pure Lean functions:

- string formatting (`format!` templates in `src/files.rs`) becomes string
  concatenation of the literal template fragments, with `\x7b`/`\x7d`
  escapes standing for literal braces and `\x27`/`\x60` for apostrophes
  and backticks inside the emitted template text;
- filesystem effects become an explicit list of `FsOp` operations returned
  by the materializer, in the order the Rust code performs them;
- fallible steps (`anyhow::Result`) become `Except String`;
- interactive prompts (`dialoguer`), the Node.js version probe and the
  pnpm presence probe are external collaborators; their outcomes enter the
  model as explicit parameters (`PromptAnswers`, `Env`, exit statuses).
-/

/-- Substring containment: `pat` occurs contiguously inside `s`.  Used to
state properties about the generated file contents. -/
def strContains (s pat : String) : Prop := pat.data <:+: s.data

instance (s pat : String) : Decidable (strContains s pat) :=
  List.decidableInfix pat.data s.data

theorem strContains_append_left (a b pat : String) (h : strContains b pat) :
    strContains (a ++ b) pat := by
  show pat.data <:+: a.data ++ b.data
  exact h.trans (List.suffix_append a.data b.data).isInfix

theorem strContains_append_right (a b pat : String) (h : strContains a pat) :
    strContains (a ++ b) pat := by
  show pat.data <:+: a.data ++ b.data
  exact h.trans (List.prefix_append a.data b.data).isInfix

theorem strContains_self (s : String) : strContains s s :=
  List.infix_refl s.data

/-- Model of Rust `str::trim`: drop leading and trailing whitespace.
(Defined structurally on the character list so that it evaluates inside
the kernel; agrees with Rust on ASCII whitespace.) -/
def rust_trim (s : String) : String :=
  ⟨((s.data.dropWhile Char.isWhitespace).reverse.dropWhile Char.isWhitespace).reverse⟩

/-- The resolved configuration as constructed and consumed by
`src/cli.rs` (`ProjectConfig::new(project_name, install_deps, use_turbo,
use_react_query)`, lines 70-75), `src/generator.rs` (reads
`config.use_react_query`, line 59) and `src/files.rs` (reads
`config.use_turbo` and `config.use_react_query`, lines 9 and 15).

Note: the declaration in `src/config.rs` (lines 1-16) lists only three
fields — `name`, `install_deps`, `use_turbo` — and a three-argument
constructor; it lacks the `use_react_query` field that every caller and
the tests in `src/files.rs` require.  See `project_config_decl_fields`
below. -/
structure ProjectConfig where
  name : String
  install_deps : Bool
  use_turbo : Bool
  use_react_query : Bool

/-- Field names of the `ProjectConfig` struct as it is DECLARED in
`src/config.rs` lines 1-16 (three fields, three-argument constructor). -/
def project_config_decl_fields : List String :=
  ["name", "install_deps", "use_turbo"]

/-- Field names of the configuration record that `src/cli.rs` lines 70-75
constructs (four constructor arguments) and that `src/generator.rs` line
59 and `src/files.rs` lines 9, 15, 207 and the `src/files.rs` tests
(`ProjectConfig::new(name.to_string(), true, use_turbo, use_react_query)`)
read. -/
def project_config_used_fields : List String :=
  ["name", "install_deps", "use_turbo", "use_react_query"]

/-- The fixed directory set, `DIRECTORIES` in `src/config.rs` lines 18-29. -/
def DIRECTORIES : List String :=
  ["src/app", "src/components", "src/constants", "src/hooks", "src/libs",
   "src/assets", "src/types", "src/fonts", "src/styles", "public"]

/-- Runtime-version compatibility predicate,
`is_node_version_compatible` in `src/validation.rs` lines 143-147
(`u32` arguments modelled as `Nat`; only comparisons are performed, so no
overflow is involved). -/
def is_node_version_compatible (major minor : Nat) : Bool :=
  let required_major : Nat := 18
  let required_minor : Nat := 18
  Nat.blt required_major major || (major == required_major && Nat.ble required_minor minor)

/-! Template text fragments extracted verbatim from the format strings in src/files.rs. -/

def react_query_deps_text : String :=
  ",\n    \"@tanstack/react-query\": \"^5.59.0\",\n    \"@tanstack/react-query-devtools\": \"^5.59.0\""

def package_json_pre_name : String :=
  "\x7b\n  \"name\": \""

def package_json_mid1 : String :=
  "\",\n  \"version\": \"0.1.0\",\n  \"private\": true,\n  \"scripts\": \x7b\n    \"dev\": \""

def package_json_mid2 : String :=
  "\",\n    \"build\": \"next build\",\n    \"start\": \"next start\",\n    \"lint\": \"next lint\",\n    \"lint:fix\": \"next lint --fix\"\n  \x7d,\n  \"dependencies\": \x7b\n    "

def package_json_base_deps : String :=
  "\"next\": \"^15.0.0\",\n    \"react\": \"^19.0.0\",\n    \"react-dom\": \"^19.0.0\""

def package_json_post : String :=
  "\n  \x7d,\n  \"devDependencies\": \x7b\n    \"@types/node\": \"^20.0.0\",\n    \"@types/react\": \"^19.0.0\",\n    \"@types/react-dom\": \"^19.0.0\",\n    \"eslint\": \"^9.0.0\",\n    \"eslint-config-next\": \"^15.0.0\",\n    \"tailwindcss\": \"^4.0.0-alpha.31\",\n    \"@tailwindcss/postcss\": \"^4.0.0-alpha.31\",\n    \"typescript\": \"^5.0.0\",\n    \"clsx\": \"^2.0.0\",\n    \"tailwind-merge\": \"^2.0.0\"\n  \x7d\n\x7d"

def tsconfig_content : String :=
  "\x7b\n  \"compilerOptions\": \x7b\n    \"target\": \"es5\",\n    \"lib\": [\"dom\", \"dom.iterable\", \"es6\"],\n    \"allowJs\": true,\n    \"skipLibCheck\": true,\n    \"strict\": true,\n    \"noEmit\": true,\n    \"esModuleInterop\": true,\n    \"module\": \"esnext\",\n    \"moduleResolution\": \"bundler\",\n    \"resolveJsonModule\": true,\n    \"isolatedModules\": true,\n    \"jsx\": \"preserve\",\n    \"incremental\": true,\n    \"plugins\": [\n      \x7b\n        \"name\": \"next\"\n      \x7d\n    ],\n    \"paths\": \x7b\n      \"@/*\": [\"./src/*\"],\n      \"@/components/*\": [\"./src/components/*\"],\n      \"@/libs/*\": [\"./src/libs/*\"],\n      \"@/hooks/*\": [\"./src/hooks/*\"],\n      \"@/types/*\": [\"./src/types/*\"],\n      \"@/constants/*\": [\"./src/constants/*\"],\n      \"@/assets/*\": [\"./src/assets/*\"]\n    \x7d\n  \x7d,\n  \"include\": [\"next-env.d.ts\", \"**/*.ts\", \"**/*.tsx\", \".next/types/**/*.ts\"],\n  \"exclude\": [\"node_modules\"]\n\x7d"

def postcss_config_content : String :=
  "const config = \x7b\n    plugins: \x7b\n        \"@tailwindcss/postcss\": \x7b\x7d,\n    \x7d,\n\x7d;\nexport default config;\n"

def next_config_content : String :=
  "import type \x7b NextConfig \x7d from \"next\";\n\nconst nextConfig: NextConfig = \x7b\n  reactStrictMode: true,\n  typescript: \x7b\n    ignoreBuildErrors: false,\n  \x7d,\n  eslint: \x7b\n    ignoreDuringBuilds: false,\n  \x7d,\n\x7d;\n\nexport default nextConfig;"

def eslint_config_content : String :=
  "\x7b\n  \"extends\": [\"next/core-web-vitals\"],\n  \"rules\": \x7b\n    \"prefer-const\": \"error\",\n    \"no-unused-vars\": \"warn\",\n    \"no-console\": \"warn\"\n  \x7d\n\x7d"

def gitignore_content : String :=
  "# Dependencies\n/node_modules\n/.pnp\n.pnp.js\n\n# Testing\n/coverage\n\n# Next.js\n/.next/\n/out/\n\n# Production\n/build\n\n# Misc\n.DS_Store\n*.pem\n\n# Debug\nnpm-debug.log*\nyarn-debug.log*\nyarn-error.log*\npnpm-debug.log*\n\n# Local env files\n.env*.local\n\n# Vercel\n.vercel\n\n# TypeScript\n*.tsbuildinfo\nnext-env.d.ts\n"

def npmrc_content : String :=
  "auto-install-peers=true\nstrict-peer-dependencies=false\n"

def layout_fixed_imports : String :=
  "import type \x7b Metadata \x7d from \x27next\x27\nimport \x7b Inter \x7d from \x27next/font/google\x27\nimport \x27@/styles/globals.css\x27\n"

def layout_mid1 : String :=
  "\nconst inter = Inter(\x7b subsets: [\x27latin\x27] \x7d)\n\nexport const metadata: Metadata = \x7b\n  title: \x27"

def layout_mid2 : String :=
  "\x27,\n  description: \x27Generated with AUI Next.js Generator\x27,\n\x7d\n\nexport default function RootLayout(\x7b\n  children,\n\x7d: \x7b\n  children: React.ReactNode\n\x7d) \x7b\n  return (\n    <html lang=\"en\">\n      <body className=\x7binter.className\x7d>\n        "

def layout_children_mid : String :=
  "\n          \x7bchildren\x7d\n        "

def layout_post : String :=
  "\n      </body>\n    </html>\n  )\n\x7d\n"

def page_pre : String :=
  "export default function Home() \x7b\n  return (\n    <main className=\"flex min-h-screen flex-col items-center justify-center p-24\">\n      <div className=\"z-10 max-w-5xl w-full items-center justify-between font-mono text-sm lg:flex\">\n        <h1 className=\"text-4xl font-bold text-center lg:text-left\">\n          Welcome to\x7b\x27 \x27\x7d\n          <span className=\"text-blue-600\">"

def page_post : String :=
  "</span>\n        </h1>\n      </div>\n\n      <div className=\"mt-8 grid text-center lg:max-w-5xl lg:w-full lg:mb-0 lg:grid-cols-3 lg:text-left\">\n        <div className=\"group rounded-lg border border-transparent px-5 py-4 transition-colors hover:border-gray-300 hover:bg-gray-100\">\n          <h2 className=\"mb-3 text-2xl font-semibold\">\n            Next.js 15\n          </h2>\n          <p className=\"m-0 max-w-[30ch] text-sm opacity-50\">\n            The React Framework for Production with App Router\n          </p>\n        </div>\n\n        <div className=\"group rounded-lg border border-transparent px-5 py-4 transition-colors hover:border-gray-300 hover:bg-gray-100\">\n          <h2 className=\"mb-3 text-2xl font-semibent\">\n            Tailwind CSS\n          </h2>\n          <p className=\"m-0 max-w-[30ch] text-sm opacity-50\">\n            Utility-first CSS framework for rapid UI development\n          </p>\n        </div>\n\n        <div className=\"group rounded-lg border border-transparent px-5 py-4 transition-colors hover:border-gray-300 hover:bg-gray-100\">\n          <h2 className=\"mb-3 text-2xl font-semibold\">\n            TypeScript\n          </h2>\n          <p className=\"m-0 max-w-[30ch] text-sm opacity-50\">\n            Type safety and enhanced developer experience\n          </p>\n        </div>\n      </div>\n    </main>\n  )\n\x7d\n"

def globals_css_content : String :=
  "@import \"tailwindcss\";\n\n/* Custom CSS Variables */\n:root \x7b\n  --background: #ffffff;\n  --foreground: #171717;\n\x7d\n\n@media (prefers-color-scheme: dark) \x7b\n  :root \x7b\n    --background: #0a0a0a;\n    --foreground: #ededed;\n  \x7d\n\x7d\n\n/* Base Styles */\nbody \x7b\n  color: var(--foreground);\n  background: var(--background);\n  font-family: Inter, system-ui, -apple-system, sans-serif;\n\x7d\n\n/* Custom Utility Classes */\n@utility text-balance \x7b\n  text-wrap: balance;\n\x7d\n\n/* Component Styles */\n@layer components \x7b\n  .btn \x7b\n    @apply font-medium rounded-md transition-colors focus:outline-none focus:ring-2 focus:ring-offset-2;\n  \x7d\n\n  .btn-primary \x7b\n    @apply bg-blue-600 text-white hover:bg-blue-700 focus:ring-blue-500;\n  \x7d\n\n  .btn-secondary \x7b\n    @apply bg-gray-600 text-white hover:bg-gray-700 focus:ring-gray-500;\n  \x7d\n\n  .btn-outline \x7b\n    @apply border border-gray-300 text-gray-700 hover:bg-gray-50 focus:ring-blue-500;\n  \x7d\n\x7d\n"

def button_component_content : String :=
  "import React from \x27react\x27\n\ninterface ButtonProps extends React.ButtonHTMLAttributes<HTMLButtonElement> \x7b\n  variant?: \x27primary\x27 | \x27secondary\x27 | \x27outline\x27\n  size?: \x27sm\x27 | \x27md\x27 | \x27lg\x27\n\x7d\n\nexport const Button: React.FC<ButtonProps> = (\x7b\n  children,\n  variant = \x27primary\x27,\n  size = \x27md\x27,\n  className = \x27\x27,\n  ...props\n\x7d) => \x7b\n  const baseClasses = \x27font-medium rounded-md transition-colors focus:outline-none focus:ring-2 focus:ring-offset-2\x27\n\n  const variantClasses = \x7b\n    primary: \x27bg-blue-600 text-white hover:bg-blue-700 focus:ring-blue-500\x27,\n    secondary: \x27bg-gray-600 text-white hover:bg-gray-700 focus:ring-gray-500\x27,\n    outline: \x27border border-gray-300 text-gray-700 hover:bg-gray-50 focus:ring-blue-500\x27\n  \x7d\n\n  const sizeClasses = \x7b\n    sm: \x27px-3 py-1.5 text-sm\x27,\n    md: \x27px-4 py-2 text-base\x27,\n    lg: \x27px-6 py-3 text-lg\x27\n  \x7d\n\n  return (\n    <button\n      className=\x7b\x60$\x7bbaseClasses\x7d $\x7bvariantClasses[variant]\x7d $\x7bsizeClasses[size]\x7d $\x7bclassName\x7d\x60\x7d\n      \x7b...props\x7d\n    >\n      \x7bchildren\x7d\n    </button>\n  )\n\x7d\n"

def query_provider_content : String :=
  "\x27use client\x27\n\nimport \x7b QueryClient, QueryClientProvider \x7d from \x27@tanstack/react-query\x27\nimport \x7b ReactQueryDevtools \x7d from \x27@tanstack/react-query-devtools\x27\nimport \x7b useState, type ReactNode \x7d from \x27react\x27\n\ninterface QueryProviderProps \x7b\n  children: ReactNode\n\x7d\n\nexport function QueryProvider(\x7b children \x7d: QueryProviderProps) \x7b\n  const [queryClient] = useState(\n    () =>\n      new QueryClient(\x7b\n        defaultOptions: \x7b\n          queries: \x7b\n            // With SSR, we usually want to set some default staleTime\n            // above 0 to avoid refetching immediately on the client\n            staleTime: 60 * 1000, // 1 minute\n            retry: 1,\n          \x7d,\n        \x7d,\n      \x7d)\n  )\n\n  return (\n    <QueryClientProvider client=\x7bqueryClient\x7d>\n      \x7bchildren\x7d\n      <ReactQueryDevtools initialIsOpen=\x7bfalse\x7d />\n    </QueryClientProvider>\n  )\n\x7d\n"

def api_client_content : String :=
  "// API configuration and utilities for React Query\n\nconst API_BASE_URL = process.env.NEXT_PUBLIC_API_URL || \x27https://jsonplaceholder.typicode.com\x27\n\nexport class ApiError extends Error \x7b\n  constructor(public status: number, message: string) \x7b\n    super(message)\n    this.name = \x27ApiError\x27\n  \x7d\n\x7d\n\nexport async function apiRequest<T>(\n  endpoint: string,\n  options: RequestInit = \x7b\x7d\n): Promise<T> \x7b\n  const url = \x60$\x7bAPI_BASE_URL\x7d$\x7bendpoint\x7d\x60\n\n  const response = await fetch(url, \x7b\n    headers: \x7b\n      \x27Content-Type\x27: \x27application/json\x27,\n      ...options.headers,\n    \x7d,\n    ...options,\n  \x7d)\n\n  if (!response.ok) \x7b\n    throw new ApiError(response.status, \x60HTTP $\x7bresponse.status\x7d: $\x7bresponse.statusText\x7d\x60)\n  \x7d\n\n  return response.json()\n\x7d\n\n// Example API functions using React Query patterns\nexport const api = \x7b\n  // GET requests\n  get: <T>(endpoint: string) => apiRequest<T>(endpoint),\n\n  // POST requests\n  post: <T>(endpoint: string, data: unknown) =>\n    apiRequest<T>(endpoint, \x7b\n      method: \x27POST\x27,\n      body: JSON.stringify(data),\n    \x7d),\n\n  // PUT requests\n  put: <T>(endpoint: string, data: unknown) =>\n    apiRequest<T>(endpoint, \x7b\n      method: \x27PUT\x27,\n      body: JSON.stringify(data),\n    \x7d),\n\n  // DELETE requests\n  delete: <T>(endpoint: string) =>\n    apiRequest<T>(endpoint, \x7b\n      method: \x27DELETE\x27,\n    \x7d),\n\x7d\n"

def example_hooks_content : String :=
  "// Example React Query hooks\n\nimport \x7b useQuery, useMutation, useQueryClient \x7d from \x27@tanstack/react-query\x27\nimport \x7b api \x7d from \x27@/libs/api\x27\n\n// Example types (replace with your actual types)\ninterface Post \x7b\n  id: number\n  title: string\n  body: string\n  userId: number\n\x7d\n\ninterface User \x7b\n  id: number\n  name: string\n  email: string\n\x7d\n\n// Query hooks\nexport function usePosts() \x7b\n  return useQuery(\x7b\n    queryKey: [\x27posts\x27],\n    queryFn: () => api.get<Post[]>(\x27/posts\x27),\n  \x7d)\n\x7d\n\nexport function usePost(id: number) \x7b\n  return useQuery(\x7b\n    queryKey: [\x27posts\x27, id],\n    queryFn: () => api.get<Post>(\x60/posts/$\x7bid\x7d\x60),\n    enabled: !!id, // Only run query if id exists\n  \x7d)\n\x7d\n\nexport function useUser(id: number) \x7b\n  return useQuery(\x7b\n    queryKey: [\x27users\x27, id],\n    queryFn: () => api.get<User>(\x60/users/$\x7bid\x7d\x60),\n    enabled: !!id,\n  \x7d)\n\x7d\n\n// Mutation hooks\nexport function useCreatePost() \x7b\n  const queryClient = useQueryClient()\n\n  return useMutation(\x7b\n    mutationFn: (newPost: Omit<Post, \x27id\x27>) => api.post<Post>(\x27/posts\x27, newPost),\n    onSuccess: () => \x7b\n      // Invalidate and refetch posts\n      queryClient.invalidateQueries(\x7b queryKey: [\x27posts\x27] \x7d)\n    \x7d,\n  \x7d)\n\x7d\n\nexport function useUpdatePost() \x7b\n  const queryClient = useQueryClient()\n\n  return useMutation(\x7b\n    mutationFn: (post: Post) => api.put<Post>(\x60/posts/$\x7bpost.id\x7d\x60, post),\n    onSuccess: (data) => \x7b\n      // Update the specific post in cache\n      queryClient.setQueryData([\x27posts\x27, data.id], data)\n      // Also invalidate the posts list\n      queryClient.invalidateQueries(\x7b queryKey: [\x27posts\x27] \x7d)\n    \x7d,\n  \x7d)\n\x7d\n\nexport function useDeletePost() \x7b\n  const queryClient = useQueryClient()\n\n  return useMutation(\x7b\n    mutationFn: (id: number) => api.delete(\x60/posts/$\x7bid\x7d\x60),\n    onSuccess: () => \x7b\n      // Invalidate posts list\n      queryClient.invalidateQueries(\x7b queryKey: [\x27posts\x27] \x7d)\n    \x7d,\n  \x7d)\n\x7d\n"

def readme_pre : String :=
  "# "

def readme_mid : String :=
  "\n\nA modern Next.js application with Tailwind CSS, ESLint, and TypeScript.\n\n## Getting Started\n\nInstall dependencies:\n\n\x60\x60\x60bash\npnpm install\n\x60\x60\x60\n\nRun the development server:\n\n\x60\x60\x60bash\npnpm dev\n\x60\x60\x60\n\nOpen [http://localhost:3000](http://localhost:3000) with your browser to see the result.\n\n## Features\n\n- ⚡ Next.js 15 with App Router\n- 🎨 Tailwind CSS for styling\n- 📝 TypeScript for type safety\n- 🔧 ESLint for code linting\n- 🚀 pnpm for fast package management\n\n## Project Structure\n\n\x60\x60\x60\n"

def readme_post : String :=
  "\n├── src/\n│   ├── app/               # Next.js App Router pages\n│   │   ├── layout.tsx\n│   │   └── page.tsx\n│   ├── components/        # UI Components (Table, Box, Text, Spinner, etc.)\n│   │   └── Button.tsx\n│   ├── constants/         # Static constants (Tabs, Roles, etc.)\n│   ├── hooks/             # Custom Hooks (React Query, Zustand store)\n│   ├── libs/              # Utilities (api.ts, dropdown.ts, formatter.ts)\n│   ├── assets/            # Images, animations (e.g., Lottie files)\n│   ├── types/             # Shared TypeScript types (API, DTOs)\n│   ├── fonts/             # Custom fonts (THSarabun for PDFs)\n│   └── styles/            # Tailwind config and global styles\n│       └── globals.css\n├── public/\n├── tsconfig.json\n└── package.json\n\x60\x60\x60\n\n## Tailwind CSS v4\n\nThis project uses Tailwind CSS v4 with CSS-based configuration. No separate config file needed - all customization is done through CSS imports and layers in \x60src/styles/globals.css\x60.\n\n## Learn More\n\nTo learn more about the technologies used in this project:\n\n- [Next.js Documentation](https://nextjs.org/docs)\n- [Tailwind CSS](https://tailwindcss.com/docs)\n- [TypeScript](https://www.typescriptlang.org/)\n\n## Deploy\n\nDeploy easily with [Vercel](https://vercel.com/):\n\n[![Deploy with Vercel](https://vercel.com/button)](https://vercel.com/new/clone?repository-url=https://github.com/your-username/your-repo)\n"

/-- Dev-run script selection, `src/files.rs` lines 9-13. -/
def dev_script (config : ProjectConfig) : String :=
  if config.use_turbo then "next dev --turbo" else "next dev"

/-- Conditional dependency text appended inside the `dependencies` block,
`react_query_deps` in `src/files.rs` lines 15-21. -/
def react_query_deps (config : ProjectConfig) : String :=
  if config.use_react_query then react_query_deps_text else ""

/-- The text of the `dependencies` block of the generated `package.json`:
the base set followed by the conditional React Query additions
(`src/files.rs` lines 35-38, interpolation slot at line 38). -/
def package_json_dependencies_block (config : ProjectConfig) : String :=
  package_json_base_deps ++ react_query_deps config

/-- The `scripts` section region of the generated `package.json`,
containing the interpolated dev-run command (`src/files.rs` lines 28-34). -/
def package_json_scripts_region (config : ProjectConfig) : String :=
  package_json_mid1 ++ dev_script config ++ package_json_mid2

/-- Everything of the generated `package.json` after the interpolated
project name. -/
def package_json_after_name (config : ProjectConfig) : String :=
  package_json_scripts_region config ++ package_json_dependencies_block config ++ package_json_post

/-- Content of the generated `package.json`, `create_package_json` in
`src/files.rs` lines 8-59 (the `format!` call assembled as concatenation
of its literal fragments and interpolated values). -/
def create_package_json_content (config : ProjectConfig) : String :=
  package_json_pre_name ++ config.name ++ package_json_after_name config

/-- Conditional data-provider import line of the application shell,
`query_import` in `src/files.rs` lines 207-215. -/
def query_import (config : ProjectConfig) : String :=
  if config.use_react_query then
    "import \x7b QueryProvider \x7d from \x27@/libs/query-provider\x27\n"
  else ""

/-- Conditional opening wrapper tag, `query_wrapper_open` in
`src/files.rs` lines 207-215. -/
def query_wrapper_open (config : ProjectConfig) : String :=
  if config.use_react_query then "<QueryProvider>" else ""

/-- Conditional closing wrapper tag, `query_wrapper_close` in
`src/files.rs` lines 207-215. -/
def query_wrapper_close (config : ProjectConfig) : String :=
  if config.use_react_query then "</QueryProvider>" else ""

/-- Import section of the generated `src/app/layout.tsx`: the three
fixed import lines followed by the conditional data-provider import. -/
def layout_import_region (config : ProjectConfig) : String :=
  layout_fixed_imports ++ query_import config

/-- The region of the generated `src/app/layout.tsx` surrounding the
`\x7bchildren\x7d` placeholder: opening wrapper tag, placeholder text,
closing wrapper tag (`src/files.rs` lines 236-239). -/
def layout_children_region (config : ProjectConfig) : String :=
  query_wrapper_open config ++ layout_children_mid ++ query_wrapper_close config

/-- Content of the generated `src/app/layout.tsx`, `create_app_layout` in
`src/files.rs` lines 202-251. -/
def create_app_layout_content (project_name : String) (config : ProjectConfig) : String :=
  layout_import_region config ++ layout_mid1 ++ project_name ++ layout_mid2
    ++ layout_children_region config ++ layout_post

/-- Content of the generated `src/app/page.tsx`, `create_app_page` in
`src/files.rs` lines 253-303. -/
def create_app_page_content (project_name : String) : String :=
  page_pre ++ project_name ++ page_post

/-- Content of the generated `README.md`, `create_readme` in
`src/files.rs` lines 597-674 (the project name is interpolated twice). -/
def create_readme_content (project_name : String) : String :=
  readme_pre ++ project_name ++ readme_mid ++ project_name ++ readme_post

/-- The file manifest: relative output path paired with generated content,
in the order `create_files` in `src/generator.rs` lines 44-68 writes them.
The three data-fetching entries are present exactly when
`use_react_query` holds; the README is written last. -/
def create_files (config : ProjectConfig) : List (String × String) :=
  [("package.json", create_package_json_content config),
   ("tsconfig.json", tsconfig_content),
   ("postcss.config.mjs", postcss_config_content),
   ("next.config.ts", next_config_content),
   (".eslintrc.json", eslint_config_content),
   (".gitignore", gitignore_content),
   (".npmrc", npmrc_content),
   ("src/app/layout.tsx", create_app_layout_content config.name config),
   ("src/app/page.tsx", create_app_page_content config.name),
   ("src/styles/globals.css", globals_css_content),
   ("src/components/Button.tsx", button_component_content)]
  ++ (if config.use_react_query then
       [("src/libs/query-provider.tsx", query_provider_content),
        ("src/libs/api.ts", api_client_content),
        ("src/hooks/use-api.ts", example_hooks_content)]
      else [])
  ++ [("README.md", create_readme_content config.name)]

/-- Command-line invocation surface, `Cli` in `src/cli.rs` lines 9-19. -/
structure CliArgs where
  name : Option String
  skip_install : Bool

/-- Outcomes of the two environmental collaborator probes consulted by
`get_project_config` when installation is not skipped:
`check_node_version` and `check_and_install_pnpm` in `src/validation.rs`
(external subprocess/prompt interactions abstracted as success booleans). -/
structure Env where
  node_compatible : Bool
  pnpm_available : Bool

/-- Answers the interactive collaborator would return for the prompts in
`src/cli.rs`: the entered project name (lines 30-39), the install
confirmation (lines 48-51), the Turbopack confirmation (lines 53-60) and
the React Query confirmation (lines 62-65). -/
structure PromptAnswers where
  entered_name : String
  install : Bool
  turbo : Bool
  react_query : Bool

/-- Project-name resolution of `get_project_config`, `src/cli.rs` lines
25-40: a caller-supplied name is accepted unchecked; a prompted name is
rejected when empty after trimming, and otherwise stored untrimmed. -/
def resolve_project_name (args : CliArgs) (ans : PromptAnswers) : Except String String :=
  match args.name with
  | some n => Except.ok n
  | none =>
    if rust_trim ans.entered_name = "" then
      Except.error "Project name cannot be empty"
    else
      Except.ok ans.entered_name

/-- Flag resolution of `get_project_config`, `src/cli.rs` lines 42-68:
with `--skip-install` all three flags are false without prompting;
otherwise the environment probes must succeed (their failures propagate
as errors), the install and React Query questions are always asked, and
the Turbopack question only when install was affirmed. -/
def resolve_flags (args : CliArgs) (env : Env) (ans : PromptAnswers) :
    Except String (Bool × Bool × Bool) :=
  if args.skip_install then
    Except.ok (false, false, false)
  else if env.node_compatible = false then
    Except.error "Node.js version is not supported"
  else if env.pnpm_available = false then
    Except.error "pnpm installation required"
  else
    let install := ans.install
    let turbo := if install then ans.turbo else false
    Except.ok (install, turbo, ans.react_query)

/-- Configuration Resolver, `get_project_config` in `src/cli.rs` lines
21-76: resolve the name, then the flags, then build the configuration. -/
def get_project_config (args : CliArgs) (env : Env) (ans : PromptAnswers) :
    Except String ProjectConfig :=
  match resolve_project_name args ans with
  | Except.error e => Except.error e
  | Except.ok project_name =>
    match resolve_flags args env ans with
    | Except.error e => Except.error e
    | Except.ok (install_deps, use_turbo, use_react_query) =>
      Except.ok ⟨project_name, install_deps, use_turbo, use_react_query⟩

/-- A filesystem or process effect performed by the materializer, in the
order performed. -/
inductive FsOp where
  | mkDir (path : String)
  | writeFile (path : String) (content : String)
  | runInstall (workdir : String)

/-- `Path::join` modelled on strings with the `/` separator. -/
def path_join (base rel : String) : String := base ++ "/" ++ rel

/-- Directory creation, `create_directories` in `src/generator.rs` lines
32-42: one `create_dir_all` per `DIRECTORIES` entry, in listed order. -/
def create_directories_ops (project_path : String) : List FsOp :=
  DIRECTORIES.map (fun d => FsOp.mkDir (path_join project_path d))

/-- File creation, `create_files` in `src/generator.rs` lines 44-68: one
write per manifest entry, in manifest order. -/
def create_files_ops (project_path : String) (config : ProjectConfig) : List FsOp :=
  (create_files config).map (fun pc => FsOp.writeFile (path_join project_path pc.1) pc.2)

/-- Warnings printed by `install_dependencies_with_pnpm` in
`src/validation.rs` lines 105-121 when the `pnpm install` subprocess
exits non-zero (colored output and the captured stderr elided). -/
def install_warnings (exit_success : Bool) : List String :=
  if exit_success then []
  else ["Failed to install dependencies", "You can install manually with: pnpm install"]

/-- Dependency installation, `install_dependencies_with_pnpm` in
`src/validation.rs` lines 105-121: the function returns `Ok(())` whether
or not the subprocess exit status is success; a non-zero exit only
produces warnings. -/
def install_dependencies_with_pnpm (exit_success : Bool) :
    Except String Unit × List String :=
  (Except.ok (), install_warnings exit_success)

/-- The full effect list of a successful materialization: root directory,
the fixed directory set, the manifest files, then the conditional install
invocation (`generate_project` in `src/generator.rs` lines 10-30). -/
def generated_ops (config : ProjectConfig) : List FsOp :=
  FsOp.mkDir config.name :: create_directories_ops config.name
    ++ create_files_ops config.name config
    ++ (if config.install_deps then [FsOp.runInstall config.name] else [])

/-- Warnings surfaced by a successful materialization: only the install
step can warn, and only when it runs. -/
def generated_warnings (config : ProjectConfig) (install_exit_success : Bool) : List String :=
  if config.install_deps then (install_dependencies_with_pnpm install_exit_success).2 else []

/-- Result of a successful materialization: the effects performed and the
warnings surfaced. -/
structure RunOutput where
  ops : List FsOp
  warnings : List String

/-- Project Materializer, `generate_project` in `src/generator.rs` lines
10-30: fail with the destination-exists error before any effect when the
destination path exists, otherwise create the root, the directory set and
the files, then optionally run the installer.  `dest_exists` abstracts
`Path::exists`; `install_exit_success` abstracts the exit status of the
`pnpm install` subprocess. -/
def generate_project (dest_exists : String → Bool) (install_exit_success : Bool)
    (config : ProjectConfig) : Except String RunOutput :=
  if dest_exists config.name then
    Except.error ("Directory \x27" ++ config.name ++ "\x27 already exists!")
  else
    Except.ok ⟨generated_ops config, generated_warnings config install_exit_success⟩

/-- Modelled from the spec: the binary entry point wiring the
Configuration Resolver to the Project Materializer in sequence ("Resolver
produces Configuration → Materializer consumes Configuration"); the
`main.rs` present in the repository implements an older variant of the
tool without the data-fetching flag and does not call `get_project_config`
or `generator::generate_project`. -/
def run_main (args : CliArgs) (env : Env) (ans : PromptAnswers)
    (dest_exists : String → Bool) (install_exit_success : Bool) :
    Except String RunOutput :=
  match get_project_config args env ans with
  | Except.error e => Except.error e
  | Except.ok config => generate_project dest_exists install_exit_success config

/-- The directory paths created by a list of effects, in order. -/
def dirs_created (ops : List FsOp) : List String :=
  ops.filterMap (fun op =>
    match op with
    | FsOp.mkDir p => some p
    | FsOp.writeFile _ _ => none
    | FsOp.runInstall _ => none)

/-- C5: for every Configuration whose destination path already exists,
materialization fails with the destination-exists error naming the path,
and performs no filesystem operation: the error result carries no
operation list, so nothing is created and the existing directory is left
untouched. -/
theorem c5_destination_exists_no_write (config : ProjectConfig) (dest_exists : String → Bool)
    (install_exit_success : Bool) (h : dest_exists config.name = true) :
    generate_project dest_exists install_exit_success config
      = Except.error ("Directory \x27" ++ config.name ++ "\x27 already exists!") := by
  simp [generate_project, h]

/-- Witness for C5 at the concrete name `demo` with an occupied
destination. -/
theorem c5_destination_exists_no_write_witness :
    ((fun _ => true) : String → Bool) "demo" = true
    ∧ generate_project (fun _ => true) true ⟨"demo", true, true, true⟩
        = Except.error "Directory \x27demo\x27 already exists!" :=
  ⟨rfl, c5_destination_exists_no_write ⟨"demo", true, true, true⟩ (fun _ => true) true rfl⟩

/-- C6: with `install_deps` set and a fresh destination, a failing exit
status of the external `pnpm install` invocation does not fail
materialization: the install step itself returns success, the overall run
returns a success result, and the failure surfaces only as warnings that
include the manual-remediation instruction. -/
theorem c6_install_failure_nonfatal (config : ProjectConfig) (dest_exists : String → Bool)
    (h1 : config.install_deps = true) (h2 : dest_exists config.name = false) :
    (install_dependencies_with_pnpm false).1 = Except.ok ()
    ∧ generate_project dest_exists false config
        = Except.ok ⟨generated_ops config, install_warnings false⟩
    ∧ install_warnings false
        = ["Failed to install dependencies", "You can install manually with: pnpm install"] := by
  refine ⟨rfl, ?_, rfl⟩
  simp [generate_project, h2, generated_warnings, h1, install_dependencies_with_pnpm]

/-- Witness for C6 at the concrete name `app` with installation enabled
and a failing install exit status. -/
theorem c6_install_failure_nonfatal_witness :
    (⟨"app", true, false, false⟩ : ProjectConfig).install_deps = true
    ∧ ((fun _ => false) : String → Bool) "app" = false
    ∧ ((install_dependencies_with_pnpm false).1 = Except.ok ()
       ∧ generate_project (fun _ => false) false ⟨"app", true, false, false⟩
           = Except.ok ⟨generated_ops ⟨"app", true, false, false⟩, install_warnings false⟩
       ∧ install_warnings false
           = ["Failed to install dependencies", "You can install manually with: pnpm install"]) :=
  ⟨rfl, rfl, c6_install_failure_nonfatal ⟨"app", true, false, false⟩ (fun _ => false) rfl rfl⟩

/-- C7: the configuration record is claimed to carry the project name and
all three boolean flags as fields.  The `ProjectConfig` struct as
declared in `src/config.rs` lines 1-16 has no `use_react_query` field,
although every consumer of the configuration (`src/cli.rs` lines 70-75,
`src/generator.rs` line 59, `src/files.rs` lines 15 and 207 and the
`src/files.rs` tests) constructs or reads that fourth field: the
declaration contradicts its own callers and tests. -/
theorem c7_config_decl_missing_field :
    "use_react_query" ∉ project_config_decl_fields
    ∧ "use_react_query" ∈ project_config_used_fields
    ∧ project_config_decl_fields = ["name", "install_deps", "use_turbo"] := by
  decide

/-- C8: on a fresh destination, materialization succeeds and the created
directories are exactly the root followed by the ten entries of
`DIRECTORIES` joined under the root, in listed order; the directory list
depends on the Configuration only through the root name (the right-hand
side mentions no flag). -/
theorem c8_fixed_directory_set (config : ProjectConfig) (dest_exists : String → Bool)
    (install_exit_success : Bool) (h : dest_exists config.name = false) :
    generate_project dest_exists install_exit_success config
        = Except.ok ⟨generated_ops config, generated_warnings config install_exit_success⟩
    ∧ dirs_created (generated_ops config)
        = config.name :: DIRECTORIES.map (path_join config.name)
    ∧ DIRECTORIES.length = 10 := by
  refine ⟨by simp [generate_project, h], ?_, rfl⟩
  rcases config with ⟨n, i, t, q⟩
  cases i <;> cases q <;> rfl

/-- Witness for C8 at the concrete name `app` with all flags set, on a
fresh destination. -/
theorem c8_fixed_directory_set_witness :
    ((fun _ => false) : String → Bool) "app" = false
    ∧ dirs_created (generated_ops ⟨"app", true, true, true⟩)
        = "app" :: DIRECTORIES.map (path_join "app") :=
  ⟨rfl, (c8_fixed_directory_set ⟨"app", true, true, true⟩ (fun _ => false) true rfl).2.1⟩

/-- C9: the runtime-version compatibility predicate accepts exactly the
versions at or above 18.18, compared lexicographically on
(major, minor). -/
theorem c9_node_version_threshold (major minor : Nat) :
    (is_node_version_compatible major minor = true
        ↔ 18 < major ∨ (major = 18 ∧ 18 ≤ minor))
    ∧ is_node_version_compatible 18 18 = true
    ∧ is_node_version_compatible 18 17 = false
    ∧ is_node_version_compatible 17 99 = false
    ∧ is_node_version_compatible 19 0 = true := by
  refine ⟨?_, rfl, rfl, rfl, rfl⟩
  simp [is_node_version_compatible, Nat.blt_eq, Nat.ble_eq]

theorem resolve_project_name_ok (args : CliArgs) (ans : PromptAnswers) (pn : String)
    (h : resolve_project_name args ans = Except.ok pn) :
    args.name = some pn
    ∨ (args.name = none ∧ pn = ans.entered_name ∧ rust_trim ans.entered_name ≠ "") := by
  rcases args with ⟨an, sk⟩
  cases an with
  | some n =>
    left
    simp [resolve_project_name] at h
    simp [h]
  | none =>
    right
    by_cases hn : rust_trim ans.entered_name = "" <;>
      simp [resolve_project_name, hn] at h
    exact ⟨rfl, h.symm, hn⟩

theorem resolve_flags_ok (args : CliArgs) (env : Env) (ans : PromptAnswers)
    (fl : Bool × Bool × Bool) (h : resolve_flags args env ans = Except.ok fl) :
    (args.skip_install = true ∧ fl = (false, false, false))
    ∨ (args.skip_install = false
        ∧ fl = (ans.install, if ans.install then ans.turbo else false, ans.react_query)) := by
  rcases args with ⟨an, sk⟩
  rcases env with ⟨nc, pa⟩
  cases sk with
  | true =>
    left
    simp [resolve_flags] at h
    simp [h.symm]
  | false =>
    right
    rcases ans with ⟨en, ai, tu, rq⟩
    cases nc <;> cases pa <;> simp [resolve_flags] at h
    refine ⟨rfl, ?_⟩
    rw [h.symm]
    cases ai <;> simp

theorem get_project_config_ok_split (args : CliArgs) (env : Env) (ans : PromptAnswers)
    (config : ProjectConfig) (h : get_project_config args env ans = Except.ok config) :
    ∃ pn fl, resolve_project_name args ans = Except.ok pn
      ∧ resolve_flags args env ans = Except.ok fl
      ∧ config = ⟨pn, fl.1, fl.2.1, fl.2.2⟩ := by
  unfold get_project_config at h
  cases hpn : resolve_project_name args ans with
  | error e => rw [hpn] at h; exact absurd h (by simp)
  | ok pn =>
    rw [hpn] at h
    cases hfl : resolve_flags args env ans with
    | error e => rw [hfl] at h; exact absurd h (by simp)
    | ok fl =>
      rcases fl with ⟨a, b, c⟩
      rw [hfl] at h
      simp at h
      exact ⟨pn, (a, b, c), rfl, rfl, h.symm⟩

/-- C3 counterexample: the claim "installDependencies=false implies
useBuildAccelerator=false and useDataFetchingLibrary=false regardless of
how installDependencies came to be false" fails on the code.  With the
non-empty name `my-app`, no skip-install flag, healthy environment, and
prompt answers declining installation but accepting React Query, the
resolver returns a Configuration with `install_deps = false` and
`use_react_query = true`: the React Query question is asked (and
honoured) even when installation is declined at the prompt. -/
theorem c3_counterexample_declined_install :
    get_project_config ⟨some "my-app", false⟩ ⟨true, true⟩ ⟨"x", false, true, true⟩
        = Except.ok ⟨"my-app", false, false, true⟩
    ∧ ("my-app" : String) ≠ "" :=
  ⟨rfl, by decide⟩

/-- C3 (amended): for every resolved Configuration,
`installDependencies=false` forces `useBuildAccelerator=false`; and when
`installDependencies=false` came from the skip-install flag, the
data-fetching flag is also false.  (When installation is declined at the
prompt instead, `useDataFetchingLibrary` may still be true.) -/
theorem c3_amended_install_flag_dependencies (args : CliArgs) (env : Env) (ans : PromptAnswers)
    (config : ProjectConfig) (h : get_project_config args env ans = Except.ok config) :
    (config.install_deps = false → config.use_turbo = false)
    ∧ (args.skip_install = true →
        config.install_deps = false ∧ config.use_turbo = false
        ∧ config.use_react_query = false) := by
  obtain ⟨pn, fl, hpn, hfl, rfl⟩ := get_project_config_ok_split args env ans config h
  rcases resolve_flags_ok args env ans fl hfl with ⟨hsk, rfl⟩ | ⟨hsk, rfl⟩
  · exact ⟨fun _ => rfl, fun _ => ⟨rfl, rfl, rfl⟩⟩
  · refine ⟨?_, ?_⟩
    · intro hi
      simp only [] at hi ⊢
      simp [show ans.install = false from hi]
    · intro hs
      rw [hsk] at hs
      simp at hs

/-- Witness for the amended C3 with the skip-install flag set. -/
theorem c3_amended_install_flag_dependencies_witness :
    get_project_config ⟨some "app", true⟩ ⟨true, true⟩ ⟨"x", true, true, true⟩
        = Except.ok ⟨"app", false, false, false⟩
    ∧ (((⟨"app", false, false, false⟩ : ProjectConfig).install_deps = false →
          (⟨"app", false, false, false⟩ : ProjectConfig).use_turbo = false)
       ∧ ((⟨some "app", true⟩ : CliArgs).skip_install = true →
          (⟨"app", false, false, false⟩ : ProjectConfig).install_deps = false
          ∧ (⟨"app", false, false, false⟩ : ProjectConfig).use_turbo = false
          ∧ (⟨"app", false, false, false⟩ : ProjectConfig).use_react_query = false)) :=
  ⟨rfl, c3_amended_install_flag_dependencies ⟨some "app", true⟩ ⟨true, true⟩
    ⟨"x", true, true, true⟩ ⟨"app", false, false, false⟩ rfl⟩

/-- C4 counterexample: the claim that an empty-after-trimming name fails
resolution "whether supplied by the caller or obtained by prompting" is
false on the code: a caller-supplied empty name is accepted unchecked and
resolution succeeds (the emptiness check in `src/cli.rs` lines 35-37 sits
only in the prompting branch). -/
theorem c4_counterexample_supplied_empty_name :
    get_project_config ⟨some "", true⟩ ⟨true, true⟩ ⟨"x", true, true, true⟩
        = Except.ok ⟨"", false, false, false⟩ := rfl

/-- C4 (amended): when the name is obtained by prompting (no
caller-supplied name) and is empty after trimming whitespace, resolution
fails with the usage error "Project name cannot be empty", and the whole
run fails with that error before any directory or file operation is
produced.  A caller-supplied name is not validated. -/
theorem c4_amended_prompted_empty_name (args : CliArgs) (env : Env) (ans : PromptAnswers)
    (dest_exists : String → Bool) (install_exit_success : Bool)
    (h1 : args.name = none) (h2 : rust_trim ans.entered_name = "") :
    get_project_config args env ans = Except.error "Project name cannot be empty"
    ∧ run_main args env ans dest_exists install_exit_success
        = Except.error "Project name cannot be empty" := by
  have hn : resolve_project_name args ans = Except.error "Project name cannot be empty" := by
    unfold resolve_project_name
    rw [h1]
    simp [h2]
  have hg : get_project_config args env ans = Except.error "Project name cannot be empty" := by
    unfold get_project_config
    rw [hn]
  exact ⟨hg, by unfold run_main; rw [hg]⟩

/-- Witness for the amended C4 with a whitespace-only prompted name. -/
theorem c4_amended_prompted_empty_name_witness :
    (⟨none, true⟩ : CliArgs).name = none
    ∧ rust_trim "   " = ""
    ∧ (get_project_config ⟨none, true⟩ ⟨true, true⟩ ⟨"   ", true, true, true⟩
          = Except.error "Project name cannot be empty"
       ∧ run_main ⟨none, true⟩ ⟨true, true⟩ ⟨"   ", true, true, true⟩ (fun _ => false) true
          = Except.error "Project name cannot be empty") :=
  ⟨rfl, rfl, c4_amended_prompted_empty_name ⟨none, true⟩ ⟨true, true⟩
    ⟨"   ", true, true, true⟩ (fun _ => false) true rfl rfl⟩

/-- C10: when the name is obtained by prompting, resolution checks only
the trimmed form for non-emptiness but stores the name exactly as
entered, untrimmed; that exact string is the destination root path of the
materialization and the string interpolated into the generated
`package.json` and `src/app/layout.tsx`. -/
theorem c10_prompted_name_stored_untrimmed (skip : Bool) (env : Env) (ans : PromptAnswers)
    (config : ProjectConfig)
    (h : get_project_config ⟨none, skip⟩ env ans = Except.ok config) :
    config.name = ans.entered_name
    ∧ rust_trim ans.entered_name ≠ ""
    ∧ (generated_ops config).head? = some (FsOp.mkDir config.name)
    ∧ create_package_json_content config
        = package_json_pre_name ++ ans.entered_name ++ package_json_after_name config
    ∧ create_app_layout_content config.name config
        = layout_import_region config ++ layout_mid1 ++ ans.entered_name ++ layout_mid2
            ++ layout_children_region config ++ layout_post := by
  obtain ⟨pn, fl, hpn, hfl, rfl⟩ := get_project_config_ok_split ⟨none, skip⟩ env ans config h
  rcases resolve_project_name_ok ⟨none, skip⟩ ans pn hpn with hsome | ⟨-, hpn', hne⟩
  · exact absurd hsome (by simp)
  · subst hpn'
    exact ⟨rfl, hne, rfl, rfl, rfl⟩

/-- Witness for C10: a prompted name with surrounding whitespace is
stored with the whitespace intact. -/
theorem c10_prompted_name_stored_untrimmed_witness :
    get_project_config ⟨none, true⟩ ⟨true, true⟩ ⟨"  my-app  ", true, true, true⟩
        = Except.ok ⟨"  my-app  ", false, false, false⟩
    ∧ (⟨"  my-app  ", false, false, false⟩ : ProjectConfig).name = "  my-app  " :=
  ⟨rfl, (c10_prompted_name_stored_untrimmed true ⟨true, true⟩
    ⟨"  my-app  ", true, true, true⟩ ⟨"  my-app  ", false, false, false⟩ rfl).1⟩

/-- C1: for every Configuration, the three data-fetching files appear in
the file manifest exactly when `use_react_query` holds; exactly then the
`dependencies` block of the generated `package.json` contains the two
extra named dependencies (appended after the base set), and the generated
application shell contains the data-provider import line and the wrapper
tag pair around the children placeholder; with the flag off the appended
dependency text and the import line are empty and the placeholder appears
bare. -/
theorem c1_data_fetching_iff (config : ProjectConfig) :
    ((create_files config).map Prod.fst).contains "src/libs/query-provider.tsx"
        = config.use_react_query
    ∧ ((create_files config).map Prod.fst).contains "src/libs/api.ts"
        = config.use_react_query
    ∧ ((create_files config).map Prod.fst).contains "src/hooks/use-api.ts"
        = config.use_react_query
    ∧ (strContains (package_json_dependencies_block config)
          "\"@tanstack/react-query\": \"^5.59.0\"" ↔ config.use_react_query = true)
    ∧ (strContains (package_json_dependencies_block config)
          "\"@tanstack/react-query-devtools\": \"^5.59.0\"" ↔ config.use_react_query = true)
    ∧ (strContains (layout_import_region config)
          "import \x7b QueryProvider \x7d from \x27@/libs/query-provider\x27"
        ↔ config.use_react_query = true)
    ∧ (strContains (layout_children_region config) "<QueryProvider>"
        ↔ config.use_react_query = true)
    ∧ (config.use_react_query = true →
        strContains (create_package_json_content config)
            "\"@tanstack/react-query\": \"^5.59.0\""
        ∧ strContains (create_app_layout_content config.name config)
            ("<QueryProvider>" ++ layout_children_mid ++ "</QueryProvider>"))
    ∧ (config.use_react_query = false →
        react_query_deps config = "" ∧ query_import config = ""
        ∧ layout_children_region config = layout_children_mid) := by
  rcases config with ⟨n, i, t, q⟩
  cases q with
  | false =>
    refine ⟨rfl, rfl, rfl, ?_, ?_, ?_, ?_, ?_, ?_⟩
    · exact iff_of_false
        (show ¬ strContains (package_json_base_deps ++ "")
            "\"@tanstack/react-query\": \"^5.59.0\"" by decide)
        (by simp)
    · exact iff_of_false
        (show ¬ strContains (package_json_base_deps ++ "")
            "\"@tanstack/react-query-devtools\": \"^5.59.0\"" by decide)
        (by simp)
    · exact iff_of_false
        (show ¬ strContains (layout_fixed_imports ++ "")
            "import \x7b QueryProvider \x7d from \x27@/libs/query-provider\x27" by decide)
        (by simp)
    · exact iff_of_false
        (show ¬ strContains ("" ++ layout_children_mid ++ "") "<QueryProvider>" by decide)
        (by simp)
    · intro hq
      simp at hq
    · intro _
      refine ⟨rfl, rfl, ?_⟩
      show ("" : String) ++ layout_children_mid ++ "" = layout_children_mid
      decide
  | true =>
    refine ⟨rfl, rfl, rfl, ?_, ?_, ?_, ?_, ?_, ?_⟩
    · exact iff_of_true
        (show strContains (package_json_base_deps ++ react_query_deps_text)
            "\"@tanstack/react-query\": \"^5.59.0\"" by decide) rfl
    · exact iff_of_true
        (show strContains (package_json_base_deps ++ react_query_deps_text)
            "\"@tanstack/react-query-devtools\": \"^5.59.0\"" by decide) rfl
    · exact iff_of_true
        (show strContains
            (layout_fixed_imports
              ++ "import \x7b QueryProvider \x7d from \x27@/libs/query-provider\x27\n")
            "import \x7b QueryProvider \x7d from \x27@/libs/query-provider\x27" by decide) rfl
    · exact iff_of_true
        (show strContains ("<QueryProvider>" ++ layout_children_mid ++ "</QueryProvider>")
            "<QueryProvider>" by decide) rfl
    · intro _
      constructor
      · have hb : strContains (package_json_base_deps ++ react_query_deps_text)
            "\"@tanstack/react-query\": \"^5.59.0\"" := by decide
        have h1 : strContains (package_json_after_name ⟨n, i, t, true⟩)
            "\"@tanstack/react-query\": \"^5.59.0\"" :=
          strContains_append_right _ package_json_post _
            (strContains_append_left (package_json_scripts_region ⟨n, i, t, true⟩) _ _ hb)
        exact strContains_append_left (package_json_pre_name ++ n) _ _ h1
      · have hcr : strContains (layout_children_region ⟨n, i, t, true⟩)
            ("<QueryProvider>" ++ layout_children_mid ++ "</QueryProvider>") :=
          strContains_self _
        exact strContains_append_right _ layout_post _
          (strContains_append_left
            (layout_import_region ⟨n, i, t, true⟩ ++ layout_mid1 ++ n ++ layout_mid2) _ _ hcr)
    · intro hq
      simp at hq

/-- Witness for C1 at the concrete Configuration ("full-app", install,
no turbo, React Query on). -/
theorem c1_data_fetching_iff_witness :
    ((create_files ⟨"full-app", true, false, true⟩).map Prod.fst).contains
        "src/libs/query-provider.tsx" = true
    ∧ strContains (create_package_json_content ⟨"full-app", true, false, true⟩)
        "\"@tanstack/react-query\": \"^5.59.0\"" :=
  ⟨(c1_data_fetching_iff ⟨"full-app", true, false, true⟩).1,
   ((c1_data_fetching_iff ⟨"full-app", true, false, true⟩).2.2.2.2.2.2.2.1 rfl).1⟩

/-- C2: the dev-run script of the generated package manifest is
`next dev --turbo` when `use_turbo` holds and the bare `next dev`
otherwise; the scripts region of the manifest carries exactly that
command, and it mentions the accelerator flag exactly when `use_turbo`
holds. -/
theorem c2_dev_run_script (config : ProjectConfig) :
    dev_script config = (if config.use_turbo then "next dev --turbo" else "next dev")
    ∧ strContains (package_json_scripts_region config)
        ("\"dev\": \"" ++ dev_script config ++ "\",")
    ∧ (strContains (package_json_scripts_region config) "next dev --turbo"
        ↔ config.use_turbo = true)
    ∧ (config.use_turbo = true →
        strContains (create_package_json_content config) "\"dev\": \"next dev --turbo\",")
    ∧ (config.use_turbo = false →
        strContains (create_package_json_content config) "\"dev\": \"next dev\",") := by
  rcases config with ⟨n, i, t, q⟩
  cases t with
  | false =>
    refine ⟨rfl, ?_, ?_, ?_, ?_⟩
    · exact show strContains (package_json_mid1 ++ "next dev" ++ package_json_mid2)
        ("\"dev\": \"" ++ "next dev" ++ "\",") by decide
    · exact iff_of_false
        (show ¬ strContains (package_json_mid1 ++ "next dev" ++ package_json_mid2)
            "next dev --turbo" by decide)
        (by simp)
    · intro ht
      simp at ht
    · intro _
      have hs : strContains (package_json_mid1 ++ "next dev" ++ package_json_mid2)
          "\"dev\": \"next dev\"," := by decide
      have h1 : strContains (package_json_after_name ⟨n, i, false, q⟩)
          "\"dev\": \"next dev\"," :=
        strContains_append_right _ package_json_post _
          (strContains_append_right _ (package_json_dependencies_block ⟨n, i, false, q⟩) _ hs)
      exact strContains_append_left (package_json_pre_name ++ n) _ _ h1
  | true =>
    refine ⟨rfl, ?_, ?_, ?_, ?_⟩
    · exact show strContains (package_json_mid1 ++ "next dev --turbo" ++ package_json_mid2)
        ("\"dev\": \"" ++ "next dev --turbo" ++ "\",") by decide
    · exact iff_of_true
        (show strContains (package_json_mid1 ++ "next dev --turbo" ++ package_json_mid2)
            "next dev --turbo" by decide) rfl
    · intro _
      have hs : strContains (package_json_mid1 ++ "next dev --turbo" ++ package_json_mid2)
          "\"dev\": \"next dev --turbo\"," := by decide
      have h1 : strContains (package_json_after_name ⟨n, i, true, q⟩)
          "\"dev\": \"next dev --turbo\"," :=
        strContains_append_right _ package_json_post _
          (strContains_append_right _ (package_json_dependencies_block ⟨n, i, true, q⟩) _ hs)
      exact strContains_append_left (package_json_pre_name ++ n) _ _ h1
    · intro ht
      simp at ht

/-- Witness for C2 at the concrete Configurations ("turbo-app" with the
accelerator, "my-app" without). -/
theorem c2_dev_run_script_witness :
    strContains (create_package_json_content ⟨"turbo-app", true, true, false⟩)
        "\"dev\": \"next dev --turbo\","
    ∧ strContains (create_package_json_content ⟨"my-app", false, false, false⟩)
        "\"dev\": \"next dev\"," :=
  ⟨(c2_dev_run_script ⟨"turbo-app", true, true, false⟩).2.2.2.1 rfl,
   (c2_dev_run_script ⟨"my-app", false, false, false⟩).2.2.2.2 rfl⟩
